import Mathlib

/-!
# ScummVM fragments: Ultima data archive, MADS Forest game logic, Neverhood save-header status

A shallow embedding of

* `engines/ultima/shared/engine/data_archive.h`
  (`UltimaDataArchive::innerToPublic`, `UltimaDataArchiveProxy::hasFile`),
* `engines/mads/forest/game_forest.cpp` (the methods of `GameForest`),
* `engines/neverhood/neverhood.h` (`NeverhoodEngine::kReadSaveHeaderError`),

followed by the properties proved about them.

Conventions. A C++ method becomes a function of the object it is called on. Calls
into classes whose bodies are outside these three files are taken as parameters
(`FileSystem`, `Externals`) and every theorem holds for all of them. A pointer to a
heap object is an `Option Nat`: `none` is `nullptr`, `some a` names the object with
identity `a`.
-/

namespace Common

/-- Modelled from the spec: the class Common::Path (common/path.h and common/path.cpp
are not among the sources). A path is the sequence of its components; the separator
is not part of any component. -/
structure Path where
  components : List String
deriving DecidableEq, Repr

/-- Cut a character sequence at every separator `/`. -/
def splitComponents : List Char → List (List Char)
  | [] => [[]]
  | c :: cs =>
    match splitComponents cs with
    | [] => [[c]]
    | w :: ws => if c = '/' then [] :: w :: ws else (c :: w) :: ws

/-- Modelled from the spec: construction of a Common::Path from a string such as
`"data/"` or `"data/foo/bar.txt"`: the components are the non-empty pieces between
separators, so a trailing separator adds no component. -/
def Path.ofString (s : String) : Path :=
  ⟨((splitComponents s.toList).filter (fun w => !w.isEmpty)).map String.mk⟩

/-- Component-wise test that the second list is an initial segment of the first. -/
def componentsStartWith : List String → List String → Bool
  | _, [] => true
  | [], _ :: _ => false
  | a :: as, b :: bs => a == b && componentsStartWith as bs

/-- Modelled from the spec: Common::Path::isRelativeTo ("a request under data/"):
the path lies under `other` when the components of `other` are the leading
components of the path. -/
def Path.isRelativeTo (self other : Path) : Bool :=
  componentsStartWith self.components other.components

/-- Modelled from the spec: Common::Path::relativeTo ("prefix-strip"): the remainder of
the path after the leading components of `other`; a path that does not lie under
`other` is returned as it is. -/
def Path.relativeTo (self other : Path) : Path :=
  if self.isRelativeTo other then ⟨self.components.drop other.components.length⟩ else self

/-- Modelled from the spec: Common::Path::join ("prefix-restore"): the components of
the argument follow those of the path. -/
def Path.join (self x : Path) : Path :=
  ⟨self.components ++ x.components⟩

end Common

namespace Ultima
namespace Shared

open Common

/-- Fields of UltimaDataArchive that `innerToPublic` reads (data_archive.h:40-42).
The wrapped archive `_zip` is only used by the methods defined in data_archive.cpp
and is left out. -/
structure UltimaDataArchive where
  _publicFolder : Path
  _innerfolder : Path
deriving DecidableEq, Repr

/-- Constructor UltimaDataArchive::UltimaDataArchive (data_archive.h:45-46):
`_publicFolder("data/"), _innerfolder(subfolder)`. -/
def UltimaDataArchive.new (subfolder : Path) : UltimaDataArchive :=
  { _publicFolder := Path.ofString "data/", _innerfolder := subfolder }

/-- Method UltimaDataArchive::innerToPublic (data_archive.h:48-51). The result is
`none` when the assertion `filename.isRelativeTo(_publicFolder)` fails. -/
def UltimaDataArchive.innerToPublic (self : UltimaDataArchive) (filename : Path) :
    Option Path :=
  if filename.isRelativeTo self._publicFolder then
    some (self._innerfolder.join (filename.relativeTo self._publicFolder))
  else
    none

/-- The two operations on file nodes that `hasFile` calls and whose bodies are not in
data_archive.h: `UltimaDataArchiveProxy::getNode` (declared at data_archive.h:130,
here a function of the proxy folder and the requested name) and
`Common::FSNode::exists`. `ν` is the type of file nodes. -/
structure FileSystem (ν : Type) where
  getNode : ν → Path → ν
  nodeExists : ν → Bool

/-- Fields of UltimaDataArchiveProxy (data_archive.h:122-123). -/
structure UltimaDataArchiveProxy (ν : Type) where
  _folder : ν
  _publicFolder : Path

/-- Constructor UltimaDataArchiveProxy::UltimaDataArchiveProxy (data_archive.h:125):
`_folder(folder), _publicFolder("data/")`. -/
def UltimaDataArchiveProxy.new {ν : Type} (folder : ν) : UltimaDataArchiveProxy ν :=
  { _folder := folder, _publicFolder := Path.ofString "data/" }

/-- Method UltimaDataArchiveProxy::hasFile (data_archive.h:140-142):
`path.isRelativeTo(_publicFolder) && getNode(path).exists()`. -/
def UltimaDataArchiveProxy.hasFile {ν : Type} (fs : FileSystem ν)
    (self : UltimaDataArchiveProxy ν) (path : Path) : Bool :=
  path.isRelativeTo self._publicFolder && fs.nodeExists (fs.getNode self._folder path)

/-- A file system in which every node exists; used to instantiate the theorems. -/
def permissiveFileSystem : FileSystem Unit :=
  { getNode := fun _ _ => (), nodeExists := fun _ => true }

end Shared
end Ultima

namespace MADS

/-- Modelled from the spec: the player-facing direction type (enum Facing of
mads/player.h, not among the sources), as its integer code. -/
abbrev Facing := Int

/-- Modelled from the spec: the enumerator FACING_NORTH of enum Facing (mads/player.h,
not among the sources). No theorem depends on the value of its code. -/
def FACING_NORTH : Facing := 8

/-- Modelled from the spec: the dialog identifier type (enum DialogId of mads/dialogs.h,
not among the sources), as its integer code. -/
abbrev DialogId := Int

/-- Modelled from the spec: the enumerator DIALOG_NONE of enum DialogId (mads/dialogs.h,
not among the sources): the value that says no dialog is pending, code 0, the one
value the truth test of `_pendingDialog` at game_forest.cpp:122 takes as false. -/
def DIALOG_NONE : DialogId := 0

/-- The field of MADSAction written by `doObjectAction` (game_forest.cpp:136). -/
structure MADSAction where
  _inProgress : Bool

/-- The fields of Scene used by game_forest.cpp (lines 45-47 and 132). -/
structure Scene where
  _priorSceneId : Int
  _currentSceneId : Int
  _nextSceneId : Int
  _action : MADSAction

/-- The fields of Player used by game_forest.cpp (lines 80-81, 122, 144-145). -/
structure Player where
  _facing : Facing
  _turnToFacing : Facing
  _visible : Bool
  _stepEnabled : Bool
  _moving : Bool

/-- Modelled from the spec: the globals register bank (class Globals of mads/globals.h
and its Forest subclass, not among the sources): one integer register per index. -/
structure Globals where
  regs : Nat → Int

/-- Modelled from the spec: the element access `_globals[idx]` of the register bank. -/
def Globals.get (self : Globals) (idx : Nat) : Int :=
  self.regs idx

/-- Modelled from the spec: Globals::reset ("register bank reset at game start"): every
register is set to zero. -/
def Globals.reset (_self : Globals) : Globals :=
  ⟨fun _ => 0⟩

/-- The field of Dialogs used by game_forest.cpp (lines 122 and 125). -/
structure Dialogs where
  _pendingDialog : DialogId

/-- The field of MADSEngine used by game_forest.cpp (`_vm->_dialogs`). -/
structure MADSEngine where
  _dialogs : Dialogs

namespace Forest

/-- The section handler classes constructed by `setSectionHandler`
(game_forest.cpp:92-113). -/
inductive SectionHandlerClass where
  | Section1Handler
  | Section2Handler
  | Section3Handler
  | Section4Handler
  | Section5Handler
  | Section6Handler
  | Section7Handler
  | Section8Handler
deriving DecidableEq, Repr

/-- The section number in the name of a handler class. -/
def SectionHandlerClass.number : SectionHandlerClass → Int
  | .Section1Handler => 1
  | .Section2Handler => 2
  | .Section3Handler => 3
  | .Section4Handler => 4
  | .Section5Handler => 5
  | .Section6Handler => 6
  | .Section7Handler => 7
  | .Section8Handler => 8

/-- A section handler object of the free store: its class and whether it is still
alive (constructed and not yet destroyed). -/
structure SectionHandlerObject where
  cls : SectionHandlerClass
  alive : Bool
deriving DecidableEq, Repr

/-- The section handler objects constructed so far, in order of construction. The
identity of an object is its position; identities are never reused. -/
abbrev Heap := List SectionHandlerObject

/-- Mark the object at a position as destroyed. -/
def destroyAt : Nat → Heap → Heap
  | _, [] => []
  | 0, o :: os => { o with alive := false } :: os
  | a + 1, o :: os => o :: destroyAt a os

/-- The C++ expression `delete p`: nothing happens for `nullptr`, otherwise the object
is destroyed. Deleting an object a second time is not told apart from the first. -/
def Heap.deleteHandler (heap : Heap) : Option Nat → Heap
  | none => heap
  | some a => destroyAt a heap

/-- The C++ expression `new C(_vm)` for a section handler class `C`: a live object of
that class is added to the free store and its identity is returned. -/
def Heap.newHandler (heap : Heap) (cls : SectionHandlerClass) : Nat × Heap :=
  (heap.length, heap ++ [{ cls := cls, alive := true }])

/-- Whether a pointer refers to a live object. -/
def Heap.isLive (heap : Heap) : Option Nat → Bool
  | none => false
  | some a => match heap[a]? with
    | some o => o.alive
    | none => false

/-- The class of the object a pointer refers to, if it refers to one. -/
def Heap.classOf (heap : Heap) : Option Nat → Option SectionHandlerClass
  | none => none
  | some a => (heap[a]?).map (fun o => o.cls)

/-- The state of a GameForest object that game_forest.cpp reads or writes: the engine
`_vm` (for `_vm->_dialogs`), and the members `_scene`, `_globals`, `_player`,
`_sectionNumber` and `_sectionHandler`. -/
structure GameForest where
  _vm : MADSEngine
  _scene : Scene
  _globals : Globals
  _player : Player
  _sectionNumber : Int
  _sectionHandler : Option Nat

/-- The calls that game_forest.cpp makes into code outside the file and whose effect
it cannot see. -/
inductive ExternalCall where
  | releasePlayerSprites
  | showDialog
  | gameSynchronize (phase1 : Bool)
  | globalsSynchronize
deriving DecidableEq, Repr

/-- The effect of the calls of `ExternalCall`; `σ` is the state of a
Common::Serializer, which the two synchronize methods receive by reference. -/
structure Externals (σ : Type) where
  releasePlayerSprites : GameForest → GameForest
  showDialog : GameForest → GameForest
  gameSynchronize : σ → Bool → GameForest → GameForest × σ
  globalsSynchronize : σ → Globals → Globals × σ

/-- Method GameForest::initializeGlobals (game_forest.cpp:52-85). -/
def GameForest.initializeGlobals (g : GameForest) : GameForest :=
  let g1 := { g with _globals := g._globals.reset }
  let g2 := { g1 with _player := { g1._player with _facing := FACING_NORTH } }
  { g2 with _player := { g2._player with _turnToFacing := FACING_NORTH } }

/-- Method GameForest::startGame (game_forest.cpp:44-50). -/
def GameForest.startGame (g : GameForest) : GameForest :=
  let g1 := { g with _scene := { g._scene with _priorSceneId := 0 } }
  let g2 := { g1 with _scene := { g1._scene with _currentSceneId := -1 } }
  let g3 := { g2 with _scene := { g2._scene with _nextSceneId := 101 } }
  g3.initializeGlobals

/-- The assignment `_sectionHandler = new C(_vm)` of game_forest.cpp:92-113. -/
def GameForest.assignNewHandler (g : GameForest) (heap : Heap)
    (cls : SectionHandlerClass) : GameForest × Heap :=
  let r := heap.newHandler cls
  ({ g with _sectionHandler := some r.1 }, r.2)

/-- Method GameForest::setSectionHandler (game_forest.cpp:87-118), on the game object
and the free store. -/
def GameForest.setSectionHandler (g : GameForest) (heap : Heap) : GameForest × Heap :=
  let heap1 := heap.deleteHandler g._sectionHandler
  match g._sectionNumber with
  | 1 => g.assignNewHandler heap1 .Section1Handler
  | 2 => g.assignNewHandler heap1 .Section2Handler
  | 3 => g.assignNewHandler heap1 .Section3Handler
  | 4 => g.assignNewHandler heap1 .Section4Handler
  | 5 => g.assignNewHandler heap1 .Section5Handler
  | 6 => g.assignNewHandler heap1 .Section6Handler
  | 7 => g.assignNewHandler heap1 .Section7Handler
  | 8 => g.assignNewHandler heap1 .Section8Handler
  | _ => (g, heap1)

/-- The assignment `_vm->_dialogs->_pendingDialog = d` of game_forest.cpp:125. -/
def GameForest.setPendingDialog (g : GameForest) (d : DialogId) : GameForest :=
  { g with _vm := { g._vm with _dialogs := { g._vm._dialogs with _pendingDialog := d } } }

/-- The condition of the `if` of GameForest::checkShowDialog (game_forest.cpp:122):
`_vm->_dialogs->_pendingDialog && _player._stepEnabled && !_globals[5]`. -/
def GameForest.checkShowDialogGuard (g : GameForest) : Bool :=
  decide (g._vm._dialogs._pendingDialog ≠ 0) && g._player._stepEnabled &&
    decide (g._globals.get 5 = 0)

/-- Method GameForest::checkShowDialog (game_forest.cpp:120-127): the state after the
call and the external calls made, in order. -/
def GameForest.checkShowDialog {σ : Type} (ext : Externals σ) (g : GameForest) :
    GameForest × List ExternalCall :=
  if g.checkShowDialogGuard then
    let g1 := ext.releasePlayerSprites g
    let g2 := ext.showDialog g1
    (g2.setPendingDialog DIALOG_NONE, [.releasePlayerSprites, .showDialog])
  else
    (g, [])

/-- Method GameForest::doObjectAction (game_forest.cpp:129-137). -/
def GameForest.doObjectAction (g : GameForest) : GameForest :=
  { g with _scene := { g._scene with _action := { g._scene._action with _inProgress := false } } }

/-- Method GameForest::unhandledAction (game_forest.cpp:139-141). -/
def GameForest.unhandledAction (g : GameForest) : GameForest :=
  g

/-- The condition of the `if` of GameForest::step (game_forest.cpp:144-145). -/
def GameForest.stepGuard (g : GameForest) : Bool :=
  g._player._visible && g._player._stepEnabled && !g._player._moving &&
    decide (g._player._facing = g._player._turnToFacing)

/-- Method GameForest::step (game_forest.cpp:143-150); the guarded block is empty. -/
def GameForest.step (g : GameForest) : GameForest :=
  if g.stepGuard then g else g

/-- Method GameForest::synchronize (game_forest.cpp:152-159): the game state and the
serializer state after the call, and the external calls made, in order. -/
def GameForest.synchronize {σ : Type} (ext : Externals σ) (g : GameForest) (s : σ)
    (phase1 : Bool) : (GameForest × σ) × List ExternalCall :=
  let r1 := ext.gameSynchronize s phase1 g
  if !phase1 then
    let r2 := ext.globalsSynchronize r1.2 r1.1._globals
    (({ r1.1 with _globals := r2.1 }, r2.2), [.gameSynchronize phase1, .globalsSynchronize])
  else
    (r1, [.gameSynchronize phase1])

/-- Externals that leave every state as it is; used to instantiate the theorems. -/
def idleExternals : Externals Unit :=
  { releasePlayerSprites := fun g => g
    showDialog := fun g => g
    gameSynchronize := fun s _ g => (g, s)
    globalsSynchronize := fun s gl => (gl, s) }

/-- A game state used to instantiate the theorems: a dialog (code 1) is pending, the
player may step, every global register is zero, and no section handler is set. -/
def sampleGame : GameForest :=
  { _vm := { _dialogs := { _pendingDialog := 1 } }
    _scene := { _priorSceneId := 7, _currentSceneId := 8, _nextSceneId := 9,
                _action := { _inProgress := true } }
    _globals := ⟨fun _ => 0⟩
    _player := { _facing := 2, _turnToFacing := 2, _visible := true,
                 _stepEnabled := true, _moving := false }
    _sectionNumber := 3
    _sectionHandler := none }

/-- A game state used to instantiate the theorems: section number 0, which is no case
of the switch of `setSectionHandler`, and a null `_sectionHandler`. -/
def nullHandlerGame : GameForest :=
  { sampleGame with _sectionNumber := 0, _sectionHandler := none }

end Forest
end MADS

namespace Neverhood

/-- The enumeration NeverhoodEngine::kReadSaveHeaderError (neverhood.h:100-105). -/
inductive kReadSaveHeaderError where
  | kRSHENoError
  | kRSHEInvalidType
  | kRSHEInvalidVersion
  | kRSHEIoError
deriving DecidableEq, Repr

/-- The numeric code of each enumerator, as written at neverhood.h:101-104. -/
def kReadSaveHeaderError.code : kReadSaveHeaderError → Int
  | .kRSHENoError => 0
  | .kRSHEInvalidType => 1
  | .kRSHEInvalidVersion => 2
  | .kRSHEIoError => 3

end Neverhood

/-! ## Auxiliary lemmas -/

namespace Common

theorem componentsStartWith_iff (l p : List String) :
    componentsStartWith l p = true ↔ ∃ t, l = p ++ t := by
  induction p generalizing l with
  | nil => cases l <;> simp [componentsStartWith]
  | cons b bs ih =>
    cases l with
    | nil => simp [componentsStartWith]
    | cons a as =>
      simp only [componentsStartWith, Bool.and_eq_true, beq_iff_eq, ih, List.cons_append,
        List.cons.injEq]
      constructor
      · rintro ⟨hab, t, ht⟩
        exact ⟨t, hab, ht⟩
      · rintro ⟨t, hab, ht⟩
        exact ⟨hab, t, ht⟩

theorem componentsStartWith_append (p t : List String) :
    componentsStartWith (p ++ t) p = true :=
  (componentsStartWith_iff (p ++ t) p).mpr ⟨t, rfl⟩

theorem ofString_data : Path.ofString "data/" = ⟨["data"]⟩ := by decide

end Common

namespace MADS
namespace Forest

theorem destroyAt_length (a : Nat) (heap : Heap) : (destroyAt a heap).length = heap.length := by
  induction heap generalizing a with
  | nil => cases a <;> simp [destroyAt]
  | cons o os ih => cases a <;> simp [destroyAt, ih]

theorem destroyAt_getElem?_self (a : Nat) (heap : Heap) (o : SectionHandlerObject)
    (h : heap[a]? = some o) : (destroyAt a heap)[a]? = some { o with alive := false } := by
  induction heap generalizing a with
  | nil => simp at h
  | cons x xs ih =>
    cases a with
    | zero =>
      simp at h
      simp [destroyAt, h]
    | succ b =>
      simp at h
      simpa [destroyAt] using ih b h

theorem deleteHandler_length (heap : Heap) (p : Option Nat) :
    (heap.deleteHandler p).length = heap.length := by
  cases p with
  | none => rfl
  | some a => exact destroyAt_length a heap

theorem exists_class_of_number (n : Int) (h1 : 1 ≤ n) (h8 : n ≤ 8) :
    ∃ cls : SectionHandlerClass, cls.number = n := by
  have h : n = 1 ∨ n = 2 ∨ n = 3 ∨ n = 4 ∨ n = 5 ∨ n = 6 ∨ n = 7 ∨ n = 8 := by omega
  rcases h with h | h | h | h | h | h | h | h
  · exact ⟨.Section1Handler, h.symm⟩
  · exact ⟨.Section2Handler, h.symm⟩
  · exact ⟨.Section3Handler, h.symm⟩
  · exact ⟨.Section4Handler, h.symm⟩
  · exact ⟨.Section5Handler, h.symm⟩
  · exact ⟨.Section6Handler, h.symm⟩
  · exact ⟨.Section7Handler, h.symm⟩
  · exact ⟨.Section8Handler, h.symm⟩

theorem setSectionHandler_of_class (g : GameForest) (heap : Heap) (cls : SectionHandlerClass)
    (h : g._sectionNumber = cls.number) :
    g.setSectionHandler heap =
      g.assignNewHandler (heap.deleteHandler g._sectionHandler) cls := by
  cases cls <;> simp only [SectionHandlerClass.number] at h <;>
    simp [GameForest.setSectionHandler, h]

theorem setSectionHandler_default (g : GameForest) (heap : Heap)
    (h : g._sectionNumber < 1 ∨ 8 < g._sectionNumber) :
    g.setSectionHandler heap = (g, heap.deleteHandler g._sectionHandler) := by
  unfold GameForest.setSectionHandler
  split <;> first | rfl | omega

theorem classOf_setSectionHandler (g : GameForest) (heap : Heap) (cls : SectionHandlerClass)
    (h : g._sectionNumber = cls.number) :
    Heap.classOf (g.setSectionHandler heap).2 (g.setSectionHandler heap).1._sectionHandler
      = some cls := by
  rw [setSectionHandler_of_class g heap cls h]
  simp [GameForest.assignNewHandler, Heap.newHandler, Heap.classOf, deleteHandler_length]

end Forest
end MADS

/-! ## Ultima data archive -/

namespace Ultima
namespace Shared

open Common

/-- C1: UltimaDataArchiveProxy::hasFile rejects every path that is not relative to the
public folder "data/", for every proxy folder and whatever the file node lookup says;
for a path that is relative to "data/" it returns what `getNode(path).exists()`
returns. -/
theorem hasFile_publicFolder_gate {ν : Type} (fs : FileSystem ν) (folder : ν) (p : Path) :
    (p.isRelativeTo (Path.ofString "data/") = false →
      (UltimaDataArchiveProxy.new folder).hasFile fs p = false) ∧
    (p.isRelativeTo (Path.ofString "data/") = true →
      (UltimaDataArchiveProxy.new folder).hasFile fs p
        = fs.nodeExists (fs.getNode folder p)) := by
  constructor
  · intro h
    simp [UltimaDataArchiveProxy.hasFile, UltimaDataArchiveProxy.new, h]
  · intro h
    simp [UltimaDataArchiveProxy.hasFile, UltimaDataArchiveProxy.new, h]

/-- Witness of C1: in a file system where every node exists, "save/game.dat" is
rejected and "data/game.dat" is found. -/
theorem hasFile_publicFolder_gate_witness :
    (Path.ofString "save/game.dat").isRelativeTo (Path.ofString "data/") = false ∧
    (UltimaDataArchiveProxy.new ()).hasFile permissiveFileSystem
      (Path.ofString "save/game.dat") = false ∧
    (Path.ofString "data/game.dat").isRelativeTo (Path.ofString "data/") = true ∧
    (UltimaDataArchiveProxy.new ()).hasFile permissiveFileSystem
      (Path.ofString "data/game.dat") = true :=
  ⟨by decide,
   (hasFile_publicFolder_gate permissiveFileSystem () (Path.ofString "save/game.dat")).1
     (by decide),
   by decide,
   (hasFile_publicFolder_gate permissiveFileSystem () (Path.ofString "data/game.dat")).2
     (by decide)⟩

/-- C2: for every inner folder f and every path p relative to "data/", innerToPublic(p)
is f joined with the remainder of p after the leading "data" component is stripped, and
that result lies under f; the assertion of innerToPublic holds exactly when p is
relative to "data/"; with f = "ultima8", "data/foo/bar.txt" becomes
"ultima8/foo/bar.txt". -/
theorem innerToPublic_remaps (f p : Path) :
    (p.isRelativeTo (Path.ofString "data/") = true →
      ∃ rest : List String,
        p.components = "data" :: rest ∧
        p.relativeTo (Path.ofString "data/") = ⟨rest⟩ ∧
        (UltimaDataArchive.new f).innerToPublic p
          = some (f.join (p.relativeTo (Path.ofString "data/"))) ∧
        (UltimaDataArchive.new f).innerToPublic p = some ⟨f.components ++ rest⟩ ∧
        (Common.Path.mk (f.components ++ rest)).isRelativeTo f = true) ∧
    (((UltimaDataArchive.new f).innerToPublic p).isSome = true ↔
      p.isRelativeTo (Path.ofString "data/") = true) ∧
    (UltimaDataArchive.new (Path.ofString "ultima8")).innerToPublic
        (Path.ofString "data/foo/bar.txt") = some (Path.ofString "ultima8/foo/bar.txt") := by
  refine ⟨?_, ?_, by decide⟩
  · intro h
    have h2 := h
    rw [ofString_data] at h2
    obtain ⟨rest, hrest⟩ := (componentsStartWith_iff p.components ["data"]).mp h2
    have hrel : p.relativeTo (Path.ofString "data/") = ⟨rest⟩ := by
      simp only [Path.relativeTo, h, if_true]
      simp [ofString_data, hrest]
    refine ⟨rest, by simpa using hrest, hrel, ?_, ?_, ?_⟩
    · simp [UltimaDataArchive.innerToPublic, UltimaDataArchive.new, h]
    · simp [UltimaDataArchive.innerToPublic, UltimaDataArchive.new, h, hrel, Path.join]
    · exact componentsStartWith_append f.components rest
  · by_cases h : p.isRelativeTo (Path.ofString "data/") = true
    · simp [UltimaDataArchive.innerToPublic, UltimaDataArchive.new, h]
    · simp [UltimaDataArchive.innerToPublic, UltimaDataArchive.new, h]

/-- Witness of C2: the path "data/maps/britain.dat" under the inner folder "ultima4". -/
theorem innerToPublic_remaps_witness :
    (Path.ofString "data/maps/britain.dat").isRelativeTo (Path.ofString "data/") = true ∧
    ∃ rest : List String,
      (Path.ofString "data/maps/britain.dat").components = "data" :: rest ∧
      (Path.ofString "data/maps/britain.dat").relativeTo (Path.ofString "data/") = ⟨rest⟩ ∧
      (UltimaDataArchive.new (Path.ofString "ultima4")).innerToPublic
          (Path.ofString "data/maps/britain.dat")
        = some ((Path.ofString "ultima4").join
            ((Path.ofString "data/maps/britain.dat").relativeTo (Path.ofString "data/"))) ∧
      (UltimaDataArchive.new (Path.ofString "ultima4")).innerToPublic
          (Path.ofString "data/maps/britain.dat")
        = some ⟨(Path.ofString "ultima4").components ++ rest⟩ ∧
      (Common.Path.mk ((Path.ofString "ultima4").components ++ rest)).isRelativeTo
        (Path.ofString "ultima4") = true :=
  ⟨by decide,
   (innerToPublic_remaps (Path.ofString "ultima4")
     (Path.ofString "data/maps/britain.dat")).1 (by decide)⟩

end Shared
end Ultima

/-! ## MADS Forest game logic -/

namespace MADS
namespace Forest

/-- C3: for every n in 1..8 and every prior state with `_sectionNumber = n`,
setSectionHandler deletes the old handler (the object `_sectionHandler` referred to is
destroyed) and leaves `_sectionHandler` referring to a newly constructed, live
SectionNHandler whose number is n; two states with distinct section numbers in 1..8 get
handlers of distinct classes. -/
theorem setSectionHandler_dispatch (g : GameForest) (heap : Heap) (n : Int)
    (hn : 1 ≤ n ∧ n ≤ 8) (hs : g._sectionNumber = n) :
    (∀ (a : Nat) (o : SectionHandlerObject), g._sectionHandler = some a → heap[a]? = some o →
      (g.setSectionHandler heap).2[a]? = some { o with alive := false }) ∧
    (∃ cls : SectionHandlerClass, cls.number = n ∧
      (g.setSectionHandler heap).1._sectionHandler = some heap.length ∧
      heap[heap.length]? = none ∧
      (g.setSectionHandler heap).2[heap.length]? = some { cls := cls, alive := true } ∧
      (g.setSectionHandler heap).2.length = heap.length + 1) ∧
    (∀ (g2 : GameForest) (heap2 : Heap),
      1 ≤ g2._sectionNumber → g2._sectionNumber ≤ 8 → g2._sectionNumber ≠ n →
      Heap.classOf (g2.setSectionHandler heap2).2 (g2.setSectionHandler heap2).1._sectionHandler
        ≠ Heap.classOf (g.setSectionHandler heap).2 (g.setSectionHandler heap).1._sectionHandler) := by
  obtain ⟨cls, hcls⟩ := exists_class_of_number n hn.1 hn.2
  have hg : g._sectionNumber = cls.number := by rw [hs, hcls]
  have hrun := setSectionHandler_of_class g heap cls hg
  refine ⟨?_, ⟨cls, hcls, ?_, ?_, ?_, ?_⟩, ?_⟩
  · intro a o ha ho
    have hlt : a < heap.length := by
      rcases Nat.lt_or_ge a heap.length with h | h
      · exact h
      · rw [List.getElem?_eq_none h] at ho
        cases ho
    rw [hrun, ha]
    simp only [GameForest.assignNewHandler, Heap.newHandler, Heap.deleteHandler]
    rw [List.getElem?_append_left (by rw [destroyAt_length]; exact hlt)]
    exact destroyAt_getElem?_self a heap o ho
  · rw [hrun]
    simp [GameForest.assignNewHandler, Heap.newHandler, deleteHandler_length]
  · simp
  · rw [hrun]
    simp [GameForest.assignNewHandler, Heap.newHandler, deleteHandler_length]
  · rw [hrun]
    simp [GameForest.assignNewHandler, Heap.newHandler, deleteHandler_length]
  · intro g2 heap2 h1 h8 hne
    obtain ⟨cls2, hcls2⟩ := exists_class_of_number g2._sectionNumber h1 h8
    rw [classOf_setSectionHandler g2 heap2 cls2 hcls2.symm,
      classOf_setSectionHandler g heap cls hg]
    intro heq
    apply hne
    have hc : cls2 = cls := Option.some.inj heq
    rw [← hcls2, hc, hcls]

/-- Witness of C3: section 3, with `_sectionHandler` referring to a live
Section1Handler, the only object of the free store. -/
theorem setSectionHandler_dispatch_witness :
    ((1 : Int) ≤ 3 ∧ (3 : Int) ≤ 8) ∧
    ({ sampleGame with _sectionHandler := some 0 } : GameForest)._sectionNumber = 3 ∧
    (({ sampleGame with _sectionHandler := some 0 } : GameForest).setSectionHandler
        [{ cls := .Section1Handler, alive := true }]).2
      = [{ cls := .Section1Handler, alive := false }, { cls := .Section3Handler, alive := true }] ∧
    (∃ cls : SectionHandlerClass, cls.number = 3 ∧
      (({ sampleGame with _sectionHandler := some 0 } : GameForest).setSectionHandler
        [{ cls := .Section1Handler, alive := true }]).1._sectionHandler = some 1) :=
  ⟨⟨by decide, by decide⟩, rfl, by decide,
   let t := setSectionHandler_dispatch { sampleGame with _sectionHandler := some 0 }
     [{ cls := .Section1Handler, alive := true }] 3 ⟨by decide, by decide⟩ rfl
   match t.2.1 with
   | ⟨cls, hc, hp, _, _, _⟩ => ⟨cls, hc, hp⟩⟩

/-- C4: from every prior state, startGame leaves the scene id triplet at prior = 0,
current = -1, next = 101, the globals register bank reset, and
`_facing = _turnToFacing = FACING_NORTH`. -/
theorem startGame_initial_state (g : GameForest) :
    g.startGame._scene._priorSceneId = 0 ∧
    g.startGame._scene._currentSceneId = -1 ∧
    g.startGame._scene._nextSceneId = 101 ∧
    g.startGame._globals = g._globals.reset ∧
    g.startGame._player._facing = FACING_NORTH ∧
    g.startGame._player._turnToFacing = FACING_NORTH ∧
    g.startGame._player._facing = g.startGame._player._turnToFacing :=
  ⟨rfl, rfl, rfl, rfl, rfl, rfl, rfl⟩

/-- C5: for every game state, unhandledAction and step leave the whole state unchanged
(step also when its guard is true), and doObjectAction sets `_scene._action._inProgress`
to false and leaves every other field unchanged. -/
theorem stubs_frame (g : GameForest) :
    g.unhandledAction = g ∧
    g.step = g ∧
    (g.stepGuard = true → g.step = g) ∧
    g.doObjectAction._scene._action._inProgress = false ∧
    g.doObjectAction = { g with _scene := { g._scene with _action := { _inProgress := false } } } ∧
    g.doObjectAction._scene._priorSceneId = g._scene._priorSceneId ∧
    g.doObjectAction._scene._currentSceneId = g._scene._currentSceneId ∧
    g.doObjectAction._scene._nextSceneId = g._scene._nextSceneId ∧
    g.doObjectAction._vm = g._vm ∧
    g.doObjectAction._globals = g._globals ∧
    g.doObjectAction._player = g._player ∧
    g.doObjectAction._sectionNumber = g._sectionNumber ∧
    g.doObjectAction._sectionHandler = g._sectionHandler := by
  have hstep : g.step = g := by
    unfold GameForest.step
    split <;> rfl
  exact ⟨rfl, hstep, fun _ => hstep, rfl, rfl, rfl, rfl, rfl, rfl, rfl, rfl, rfl, rfl⟩

/-- Witness of C5: a state in which the guard of step is true. -/
theorem stubs_frame_witness :
    sampleGame.stepGuard = true ∧ sampleGame.step = sampleGame :=
  ⟨by decide, (stubs_frame sampleGame).2.2.1 (by decide)⟩

end Forest
end MADS

namespace MADS
namespace Forest

theorem checkShowDialogGuard_iff (g : GameForest) :
    g.checkShowDialogGuard = true ↔
      (g._vm._dialogs._pendingDialog ≠ DIALOG_NONE ∧ g._player._stepEnabled = true ∧
        g._globals.get 5 = 0) := by
  simp [GameForest.checkShowDialogGuard, DIALOG_NONE, and_assoc]

/-- Counterexample to C7 as stated: with section number 0 and a null `_sectionHandler`,
the field is null after the call, so it refers to no handler, destroyed or not. -/
theorem setSectionHandler_default_null_counterexample :
    (nullHandlerGame._sectionNumber < 1 ∨ 8 < nullHandlerGame._sectionNumber) ∧
    (nullHandlerGame.setSectionHandler []).1._sectionHandler = none ∧
    ¬ ∃ (a : Nat) (o : SectionHandlerObject),
        (nullHandlerGame.setSectionHandler []).1._sectionHandler = some a ∧
        (nullHandlerGame.setSectionHandler []).2[a]? = some o ∧ o.alive = false := by
  refine ⟨by decide, rfl, ?_⟩
  rintro ⟨a, o, ha, -, -⟩
  have hnone : (nullHandlerGame.setSectionHandler []).1._sectionHandler = none := rfl
  rw [hnone] at ha
  cases ha

/-- C7, amended: for every state whose `_sectionNumber` is outside 1..8,
setSectionHandler deletes the current handler, constructs no new one and leaves the
game object, `_sectionHandler` included, as it was: when the field referred to a handler
object it still refers to that object, which is now destroyed; when the field was null
it stays null and the free store is unchanged. -/
theorem setSectionHandler_default_keeps_pointer (g : GameForest) (heap : Heap)
    (h : g._sectionNumber < 1 ∨ 8 < g._sectionNumber) :
    (g.setSectionHandler heap).1 = g ∧
    (g.setSectionHandler heap).1._sectionHandler = g._sectionHandler ∧
    (g.setSectionHandler heap).2.length = heap.length ∧
    (∀ (a : Nat) (o : SectionHandlerObject), g._sectionHandler = some a → heap[a]? = some o →
      (g.setSectionHandler heap).1._sectionHandler = some a ∧
      (g.setSectionHandler heap).2[a]? = some { o with alive := false } ∧
      Heap.isLive (g.setSectionHandler heap).2 (g.setSectionHandler heap).1._sectionHandler
        = false) ∧
    (g._sectionHandler = none →
      (g.setSectionHandler heap).1._sectionHandler = none ∧
      (g.setSectionHandler heap).2 = heap) := by
  have hrun := setSectionHandler_default g heap h
  refine ⟨by rw [hrun], by rw [hrun], ?_, ?_, ?_⟩
  · rw [hrun]
    exact deleteHandler_length heap g._sectionHandler
  · intro a o ha ho
    have hobj : (g.setSectionHandler heap).2[a]? = some { o with alive := false } := by
      rw [hrun, ha]
      exact destroyAt_getElem?_self a heap o ho
    refine ⟨by rw [hrun]; exact ha, hobj, ?_⟩
    have hp : (g.setSectionHandler heap).1._sectionHandler = some a := by rw [hrun]; exact ha
    rw [hp]
    simp [Heap.isLive, hobj]
  · intro hnull
    rw [hrun, hnull]
    exact ⟨rfl, rfl⟩

/-- Witness of C7, amended: section number 0 with `_sectionHandler` referring to a live
Section2Handler; afterwards the field still refers to it and it is destroyed. -/
theorem setSectionHandler_default_keeps_pointer_witness :
    (({ nullHandlerGame with _sectionHandler := some 0 } : GameForest)._sectionNumber < 1 ∨
      8 < ({ nullHandlerGame with _sectionHandler := some 0 } : GameForest)._sectionNumber) ∧
    (({ nullHandlerGame with _sectionHandler := some 0 } : GameForest).setSectionHandler
      [{ cls := .Section2Handler, alive := true }]).1._sectionHandler = some 0 ∧
    (({ nullHandlerGame with _sectionHandler := some 0 } : GameForest).setSectionHandler
      [{ cls := .Section2Handler, alive := true }]).2[0]?
        = some { cls := .Section2Handler, alive := false } :=
  ⟨by decide,
   ((setSectionHandler_default_keeps_pointer { nullHandlerGame with _sectionHandler := some 0 }
      [{ cls := .Section2Handler, alive := true }] (by decide)).2.2.2.1 0
      { cls := .Section2Handler, alive := true } rfl rfl).1,
   by decide⟩

/-- C8: checkShowDialog shows the pending dialog if and only if a dialog is pending
(`_pendingDialog` is not DIALOG_NONE), the player's `_stepEnabled` is true and global
register 5 is zero; when it does, the player sprites are released, then the dialog is
shown, and `_pendingDialog` is DIALOG_NONE afterwards, so that an immediately repeated
call does nothing; when one of the three conditions fails, the state is unchanged (the
pending dialog included) and no call is made. -/
theorem checkShowDialog_spec {σ : Type} (ext : Externals σ) (g : GameForest) :
    (ExternalCall.showDialog ∈ (g.checkShowDialog ext).2 ↔
      (g._vm._dialogs._pendingDialog ≠ DIALOG_NONE ∧ g._player._stepEnabled = true ∧
        g._globals.get 5 = 0)) ∧
    ((g._vm._dialogs._pendingDialog ≠ DIALOG_NONE ∧ g._player._stepEnabled = true ∧
        g._globals.get 5 = 0) →
      (g.checkShowDialog ext).2 = [.releasePlayerSprites, .showDialog] ∧
      (g.checkShowDialog ext).1
        = (ext.showDialog (ext.releasePlayerSprites g)).setPendingDialog DIALOG_NONE ∧
      (g.checkShowDialog ext).1._vm._dialogs._pendingDialog = DIALOG_NONE ∧
      (g.checkShowDialog ext).1.checkShowDialog ext = ((g.checkShowDialog ext).1, [])) ∧
    (¬ (g._vm._dialogs._pendingDialog ≠ DIALOG_NONE ∧ g._player._stepEnabled = true ∧
        g._globals.get 5 = 0) →
      g.checkShowDialog ext = (g, [])) := by
  by_cases hc : g._vm._dialogs._pendingDialog ≠ DIALOG_NONE ∧ g._player._stepEnabled = true ∧
      g._globals.get 5 = 0
  · have hguard : g.checkShowDialogGuard = true := (checkShowDialogGuard_iff g).mpr hc
    have hrun : g.checkShowDialog ext
        = ((ext.showDialog (ext.releasePlayerSprites g)).setPendingDialog DIALOG_NONE,
            [.releasePlayerSprites, .showDialog]) := by
      simp [GameForest.checkShowDialog, hguard]
    have hagain : ((ext.showDialog (ext.releasePlayerSprites g)).setPendingDialog
        DIALOG_NONE).checkShowDialogGuard = false := by
      simp [GameForest.checkShowDialogGuard, GameForest.setPendingDialog, DIALOG_NONE]
    refine ⟨?_, ?_, fun hn => absurd hc hn⟩
    · rw [hrun]
      simp [hc]
    · intro _
      rw [hrun]
      refine ⟨rfl, rfl, rfl, ?_⟩
      simp [GameForest.checkShowDialog, hagain]
  · have hguard : g.checkShowDialogGuard = false := by
      cases hb : g.checkShowDialogGuard
      · rfl
      · exact absurd ((checkShowDialogGuard_iff g).mp hb) hc
    have hrun : g.checkShowDialog ext = (g, []) := by
      simp [GameForest.checkShowDialog, hguard]
    refine ⟨?_, fun h => absurd h hc, fun _ => hrun⟩
    rw [hrun]
    simp [hc]

/-- Witness of C8: a dialog is pending with all three conditions true, and the same
state with global register 5 set to 1. -/
theorem checkShowDialog_spec_witness :
    (sampleGame._vm._dialogs._pendingDialog ≠ DIALOG_NONE ∧
      sampleGame._player._stepEnabled = true ∧ sampleGame._globals.get 5 = 0) ∧
    (sampleGame.checkShowDialog idleExternals).2 = [.releasePlayerSprites, .showDialog] ∧
    (sampleGame.checkShowDialog idleExternals).1._vm._dialogs._pendingDialog = DIALOG_NONE ∧
    ¬ (({ sampleGame with _globals := ⟨fun _ => 1⟩ } : GameForest)._vm._dialogs._pendingDialog
          ≠ DIALOG_NONE ∧
        ({ sampleGame with _globals := ⟨fun _ => 1⟩ } : GameForest)._player._stepEnabled = true ∧
        ({ sampleGame with _globals := ⟨fun _ => 1⟩ } : GameForest)._globals.get 5 = 0) ∧
    ({ sampleGame with _globals := ⟨fun _ => 1⟩ } : GameForest).checkShowDialog idleExternals
      = ({ sampleGame with _globals := ⟨fun _ => 1⟩ }, []) :=
  ⟨by decide,
   ((checkShowDialog_spec idleExternals sampleGame).2.1 (by decide)).1,
   ((checkShowDialog_spec idleExternals sampleGame).2.1 (by decide)).2.2.1,
   by decide,
   (checkShowDialog_spec idleExternals { sampleGame with _globals := ⟨fun _ => 1⟩ }).2.2
     (by decide)⟩

/-- C9: GameForest::synchronize always calls the base Game::synchronize first, with the
serializer and phase flag it was given, and calls the synchronize of the globals
register bank exactly when phase1 is false: in phase 1 the result is that of the base
call alone and no globals call is made; in phase 2 the globals are synchronized once,
after the base call, with the serializer as the base call left it. -/
theorem synchronize_phases {σ : Type} (ext : Externals σ) (g : GameForest) (s : σ)
    (phase1 : Bool) :
    (g.synchronize ext s phase1).2.head? = some (.gameSynchronize phase1) ∧
    (g.synchronize ext s phase1).2.count .globalsSynchronize = (if phase1 then 0 else 1) ∧
    (phase1 = true →
      g.synchronize ext s phase1 = (ext.gameSynchronize s true g, [.gameSynchronize true])) ∧
    (phase1 = false →
      (g.synchronize ext s phase1).2 = [.gameSynchronize false, .globalsSynchronize] ∧
      (g.synchronize ext s phase1).1 =
        ({ (ext.gameSynchronize s false g).1 with
            _globals := (ext.globalsSynchronize (ext.gameSynchronize s false g).2
              (ext.gameSynchronize s false g).1._globals).1 },
          (ext.globalsSynchronize (ext.gameSynchronize s false g).2
            (ext.gameSynchronize s false g).1._globals).2)) := by
  cases phase1
  · refine ⟨rfl, ?_, fun h => Bool.noConfusion h, fun _ => ⟨rfl, rfl⟩⟩
    simp [GameForest.synchronize]
  · refine ⟨rfl, ?_, fun _ => rfl, fun h => Bool.noConfusion h⟩
    simp [GameForest.synchronize]

/-- Witness of C9: both phases with externals that change nothing. -/
theorem synchronize_phases_witness :
    sampleGame.synchronize idleExternals () true
      = (idleExternals.gameSynchronize () true sampleGame, [.gameSynchronize true]) ∧
    (sampleGame.synchronize idleExternals () false).2
      = [.gameSynchronize false, .globalsSynchronize] :=
  ⟨(synchronize_phases idleExternals sampleGame () true).2.2.1 rfl,
   ((synchronize_phases idleExternals sampleGame () false).2.2.2 rfl).1⟩

end Forest
end MADS

/-! ## Neverhood save-header status -/

namespace Neverhood

/-- C6: the read-save-header result has exactly four values, no error, invalid type,
invalid version and I/O error, with numeric codes 0, 1, 2 and 3 respectively; the codes
are pairwise distinct, and code 0 belongs to kRSHENoError alone. -/
theorem kReadSaveHeaderError_codes :
    kReadSaveHeaderError.kRSHENoError.code = 0 ∧
    kReadSaveHeaderError.kRSHEInvalidType.code = 1 ∧
    kReadSaveHeaderError.kRSHEInvalidVersion.code = 2 ∧
    kReadSaveHeaderError.kRSHEIoError.code = 3 ∧
    (∀ e : kReadSaveHeaderError,
      e = .kRSHENoError ∨ e = .kRSHEInvalidType ∨ e = .kRSHEInvalidVersion ∨ e = .kRSHEIoError) ∧
    [kReadSaveHeaderError.kRSHENoError, .kRSHEInvalidType, .kRSHEInvalidVersion,
      .kRSHEIoError].Nodup ∧
    Function.Injective kReadSaveHeaderError.code ∧
    (∀ e : kReadSaveHeaderError, e.code = 0 ↔ e = .kRSHENoError) := by
  refine ⟨rfl, rfl, rfl, rfl, ?_, by decide, ?_, ?_⟩
  · intro e
    cases e <;> simp
  · intro a b hab
    cases a <;> cases b <;> simp [kReadSaveHeaderError.code] at hab <;> rfl
  · intro e
    cases e <;> simp [kReadSaveHeaderError.code]

end Neverhood
